import Mathlib

/-!
# Verification of the agentsdb-visualization real-time synchronization subsystem

Shallow embedding of the core of the repository:

* `server/agentdb-service.ts` (`AgentDBService`): the metrics store backed by a
  SQLite table, modelled as a `List` of rows.  ISO-8601 timestamp strings are
  compared lexicographically by SQLite (`TEXT` column); for strings in the fixed
  ISO format this order coincides with chronological order, so timestamps are
  modelled as `Int` (milliseconds).  `REAL` values are modelled as `Int`
  (the generator only ever produces integral values via `Math.floor`); the
  claims under study concern which rows are selected, grouped and ordered, not
  float rounding.
* `server/data-generator.ts` (`DataGenerator`): the seeding job, parametrised
  by value oracles standing for `Math.random()`.
* `server/index.ts`: the WebSocket broadcast (`broadcastUpdate`) and the
  seed / cleanup HTTP handlers, including JavaScript's implicit numeric
  coercion of a request body's `hours` field.
* `src/hooks/useAgentDBWebSocket.ts`: the push-transport reconnection state
  machine (refs modelled as record fields, socket/timer lifecycle as events).
* `src/hooks/useAgentDBPolling.ts`: the poll loop with its in-flight guard.
* `src/components/DashboardNew.tsx`: the supervisor that selects the active
  transport mode and falls back to polling on reconnection exhaustion.
-/

namespace AgentDBViz

/-! ## Data model (server/agentdb-service.ts) -/

/-- `metricType ∈ {line, bar, pie}` from the `DashboardMetric` interface. -/
inductive MetricType
  | line
  | bar
  | pie
deriving DecidableEq, Repr

/-- One row of the `metrics` table.  `category` is the nullable `TEXT` column,
`value` the `REAL` column (integral in every write path of this repository),
`timestamp` the ISO-8601 `TEXT` column modelled as milliseconds. -/
structure DashboardMetric where
  timestamp : Int
  metricType : MetricType
  category : Option String
  value : Int
  metadata : Option String := none
deriving DecidableEq, Repr

/-- The `metrics` table: rows in insertion (rowid) order. -/
abbrev MetricsDB := List DashboardMetric

/-- `insertMetric`: a single `INSERT INTO metrics ...`. -/
def insertMetric (db : MetricsDB) (m : DashboardMetric) : MetricsDB :=
  db ++ [m]

/-- `insertMetricsBatch(metrics)`: all inserts run inside one
`db.transaction`, so the whole batch becomes visible as a single step; the
function returns `metrics.length`. -/
def insertMetricsBatch (db : MetricsDB) (ms : List DashboardMetric) :
    MetricsDB × Nat :=
  (db ++ ms, ms.length)

/-- `getTotalEvents`: `SELECT COUNT(*) FROM metrics`. -/
def getTotalEvents (db : MetricsDB) : Nat :=
  db.length

/-- The comparison used by `ORDER BY timestamp DESC`. -/
def tsDesc (a b : DashboardMetric) : Prop :=
  b.timestamp ≤ a.timestamp

instance : DecidableRel tsDesc := fun a b =>
  inferInstanceAs (Decidable (b.timestamp ≤ a.timestamp))

instance : IsTotal DashboardMetric tsDesc :=
  ⟨fun a b => (Int.le_total b.timestamp a.timestamp).imp id id⟩

instance : IsTrans DashboardMetric tsDesc :=
  ⟨fun _ _ _ h h' => le_trans h' h⟩

/-- `getLineChartData(limit)`:
`SELECT timestamp, value FROM metrics WHERE metricType = 'line'
 ORDER BY timestamp DESC LIMIT ?`, then `results.reverse()`. -/
def getLineChartData (db : MetricsDB) (limit : Nat) : List (Int × Int) :=
  ((((db.filter (fun m => m.metricType = .line)).insertionSort tsDesc).take
      limit).map (fun m => (m.timestamp, m.value))).reverse

/-- The distinct categories selected by
`WHERE metricType = ? AND category IS NOT NULL GROUP BY category`. -/
def categoriesOf (db : MetricsDB) (mt : MetricType) : List String :=
  (db.filterMap (fun m => if m.metricType = mt then m.category else none)).dedup

/-- `SUM(value)` over the rows of one `GROUP BY category` group. -/
def sumFor (db : MetricsDB) (mt : MetricType) (c : String) : Int :=
  ((db.filter (fun m => m.metricType = mt ∧ m.category = some c)).map
    (fun m => m.value)).sum

/-- `SELECT category, SUM(value) ... WHERE metricType = ? AND category IS NOT
NULL GROUP BY category ORDER BY category`: one `(category, sum)` row per
distinct non-null category, ascending by category. -/
def getAggregates (db : MetricsDB) (mt : MetricType) : List (String × Int) :=
  ((categoriesOf db mt).insertionSort (· ≤ ·)).map (fun c => (c, sumFor db mt c))

/-- `getBarChartData()`. -/
def getBarChartData (db : MetricsDB) : List (String × Int) :=
  getAggregates db .bar

/-- `getPieChartData()`. -/
def getPieChartData (db : MetricsDB) : List (String × Int) :=
  getAggregates db .pie

/-- The snapshot shape returned by `getDashboardData()`. -/
structure DashboardData where
  lineChartData : List (Int × Int)
  barChartData : List (String × Int)
  pieChartData : List (String × Int)
  totalEvents : Nat
  lastUpdated : Int
deriving DecidableEq, Repr

/-- `getDashboardData()`: the snapshot computed from the store. -/
def getDashboardData (db : MetricsDB) (now : Int) : DashboardData :=
  { lineChartData := getLineChartData db 10
    barChartData := getBarChartData db
    pieChartData := getPieChartData db
    totalEvents := getTotalEvents db
    lastUpdated := now }

/-- `cleanupOldData(hoursToKeep)`: cutoff is `now - hoursToKeep` hours;
`DELETE FROM metrics WHERE timestamp < ?` returns `changes`, the number of
deleted rows.  Returned: the surviving table and the deleted count. -/
def cleanupOldData (db : MetricsDB) (now hoursToKeep : Int) : MetricsDB × Nat :=
  let cutoffTime := now - hoursToKeep * 3600000
  (db.filter (fun m => cutoffTime ≤ m.timestamp),
   (db.filter (fun m => m.timestamp < cutoffTime)).length)

/-! ## Generator (server/data-generator.ts)

`Math.random()`-derived values are parametrised by oracles (`v`, `vb`, `vp`):
the claims under study depend only on timestamps, types, categories and
counts, never on the random values themselves. -/

/-- `private categories` of `DataGenerator`. -/
def seedCategories : List String :=
  ["Category A", "Category B", "Category C", "Category D"]

/-- The `line` points pushed by `for (let i = 60; i >= 0; i--)` in
`seedHistoricalData`: 61 points at `now - i * intervalMs`, oldest first. -/
def seedLineMetrics (now intervalMs : Int) (v : Nat → Int) :
    List DashboardMetric :=
  (List.range 61).map (fun (j : Nat) =>
    { timestamp := now - (60 - (j : Int)) * intervalMs, metricType := .line,
      category := none, value := v j })

/-- The `bar` points of `seedHistoricalData`: one per category, at `now`. -/
def seedBarMetrics (now : Int) (vb : String → Int) : List DashboardMetric :=
  seedCategories.map (fun c =>
    { timestamp := now, metricType := .bar, category := some c, value := vb c })

/-- The `pie` points of `seedHistoricalData`: one per category, at `now`. -/
def seedPieMetrics (now : Int) (vp : String → Int) : List DashboardMetric :=
  seedCategories.map (fun c =>
    { timestamp := now, metricType := .pie, category := some c, value := vp c })

/-- The full `metrics` array built by `seedHistoricalData` before the batch
insert: 61 line points, then 4 bar points, then 4 pie points. -/
def seedMetrics (now intervalMs : Int) (v : Nat → Int) (vb vp : String → Int) :
    List DashboardMetric :=
  seedLineMetrics now intervalMs v ++ seedBarMetrics now vb ++
    seedPieMetrics now vp

/-! ## HTTP handlers (server/index.ts)

A JSON body field is modelled by `JsVal`; JavaScript's implicit ToNumber
coercion (applied by `hours * 60 * 60 * 1000`) is `toNumber`, with `none`
standing for NaN.  Decimal-integer strings are the coercible string shapes
this development needs. -/

/-- A JSON value that can appear in the `hours` field of a request body.
Strings are carried as character lists. -/
inductive JsVal
  | num (n : Int)
  | str (s : List Char)
  | boolean (b : Bool)
  | null
deriving DecidableEq, Repr

/-- Decimal-digit accumulation for `jsStringToNumber`. -/
def parseNatAux : List Char → Nat → Option Nat
  | [], acc => some acc
  | c :: cs, acc =>
      if '0' ≤ c ∧ c ≤ '9' then parseNatAux cs (acc * 10 + (c.toNat - '0'.toNat))
      else none

/-- JavaScript `Number(string)` restricted to the string shapes this
development needs: the empty string coerces to 0, a (possibly negated)
nonempty digit string parses, anything else is NaN (`none`). -/
def jsStringToNumber : List Char → Option Int
  | [] => some 0
  | '-' :: cs =>
      if cs.isEmpty then none
      else (parseNatAux cs 0).map (fun n => -(n : Int))
  | cs => (parseNatAux cs 0).map (fun n => (n : Int))

/-- JavaScript ToNumber: numbers pass through, numeric strings parse,
`true`/`false` become 1/0, `null` becomes 0; `none` is NaN. -/
def toNumber : JsVal → Option Int
  | .num n => some n
  | .str s => jsStringToNumber s
  | .boolean b => some (if b then 1 else 0)
  | .null => some 0

/-- `seedHistoricalData(hours)`: computes
`intervalMs = hours * 60 * 60 * 1000 / 60` (exactly `h * 60000` for integral
`h`), builds the 69 seed points and inserts them in one batch.  When `hours`
coerces to NaN, `new Date(NaN).toISOString()` throws `RangeError: Invalid
time value` while building the very first point — before any insert runs. -/
def seedHistoricalData (db : MetricsDB) (now : Int) (v : Nat → Int)
    (vb vp : String → Int) (hours : JsVal) : Except String (MetricsDB × Nat) :=
  match toNumber hours with
  | none => .error "Invalid time value"
  | some h =>
      let intervalMs := h * 60000
      .ok (insertMetricsBatch db (seedMetrics now intervalMs v vb vp))

/-- The JSON responses the seed/cleanup routes can produce. -/
inductive ApiResponse
  | okSeeded (count : Nat)
  | okDeleted (deleted : Nat)
  | serverError (msg : String)
deriving DecidableEq, Repr

/-- `POST /api/seed`: `const { hours = 1 } = req.body` (the default applies
only when the field is absent), then `seedHistoricalData(hours)` with no
validation of any kind; any exception is caught and answered with the
generic 500 payload `{ success: false, error: 'Failed to seed data' }`. -/
def seedHandler (db : MetricsDB) (now : Int) (v : Nat → Int)
    (vb vp : String → Int) (body : Option JsVal) : MetricsDB × ApiResponse :=
  let hours := body.getD (.num 1)
  match seedHistoricalData db now v vb vp hours with
  | .ok (db', count) => (db', .okSeeded count)
  | .error _ => (db, .serverError "Failed to seed data")

/-- `DELETE /api/cleanup`: `const { hours = 24 } = req.body`, then
`cleanupOldData(hours)`, again with no validation.  `cleanupOldData` computes
`new Date(Date.now() - hours*3600000).toISOString()`, which throws before the
DELETE statement when `hours` coerces to NaN; the route's catch answers with
`{ success: false, error: 'Failed to cleanup data' }`. -/
def cleanupHandler (db : MetricsDB) (now : Int) (body : Option JsVal) :
    MetricsDB × ApiResponse :=
  let hours := body.getD (.num 24)
  match toNumber hours with
  | none => (db, .serverError "Failed to cleanup data")
  | some h => ((cleanupOldData db now h).1, .okDeleted (cleanupOldData db now h).2)

/-! ## Broadcast (server/index.ts) -/

/-- The WebSocket readyState constants. -/
inductive ReadyState
  | CONNECTING
  | OPEN
  | CLOSING
  | CLOSED
deriving DecidableEq, Repr

/-- One entry of the server's `clients` set. -/
structure ClientConn where
  id : Nat
  readyState : ReadyState
deriving DecidableEq, Repr

/-- `broadcastUpdate()`: returns early when the set is empty; otherwise walks
`clients` in set order and calls `client.send(message)` exactly on the
entries with `readyState === WebSocket.OPEN`.  The loop body has no
try/catch and never mutates `clients` (`ws.send` on an OPEN socket is
fire-and-forget: transmission errors surface asynchronously through the
socket's own error event, whose handler elsewhere does the removal).
Result: the connection set after the broadcast, and the ids that were sent
the `update` message, in set order. -/
def broadcastUpdate (clients : List ClientConn) : List ClientConn × List Nat :=
  if clients.length = 0 then (clients, [])
  else
    (clients, (clients.filter (fun c => c.readyState = .OPEN)).map (fun c => c.id))

/-- The `ws.on('close')` / `ws.on('error')` handlers: `clients.delete(ws)`. -/
def removeClient (clients : List ClientConn) (c : ClientConn) :
    List ClientConn :=
  clients.erase c

/-- A sequence of `insertMetricsBatch` calls applied to a store. -/
def applyBatches (db : MetricsDB) (bs : List (List DashboardMetric)) :
    MetricsDB :=
  bs.foldl (fun d b => (insertMetricsBatch d b).1) db

/-- Every store state observable while a sequence of batches is applied:
better-sqlite3 transactions run synchronously in the single-threaded server
process, so a read can only happen between whole batches — these are exactly
the states of this list. -/
def batchStates (db : MetricsDB) : List (List DashboardMetric) → List MetricsDB
  | [] => [db]
  | b :: bs => db :: batchStates (insertMetricsBatch db b).1 bs

/-! ## Push transport state machine (src/hooks/useAgentDBWebSocket.ts)

The hook's refs become record fields; the asynchronous socket / timer
callbacks become step functions.  `liveSockets` counts sockets that have been
constructed and whose `close` event has not yet fired (a socket on which
`close()` was called stays live in this sense until its asynchronous `close`
event is delivered). -/

/-- The error string set when the reconnection budget is exhausted. -/
def maxReconnectMsg : String := "Max reconnection attempts reached"

/-- The mutable state of one `useAgentDBWebSocket` session. -/
structure WSState where
  attempts : Nat
  hasTimer : Bool
  liveSockets : Nat
  isConnected : Bool
  errorMsg : Option String
  maxErrorEmissions : Nat
  intentional : Bool
  mounted : Bool
deriving DecidableEq, Repr

/-- `connect()`: returns immediately when unmounted; otherwise constructs a
new `WebSocket` and installs its handlers. -/
def wsConnect (s : WSState) : WSState :=
  if s.mounted then { s with liveSockets := s.liveSockets + 1 } else s

/-- `ws.onopen`: `setIsConnected(true); setError(null);
reconnectAttemptRef.current = 0`. -/
def wsOnOpen (s : WSState) : WSState :=
  { s with isConnected := true, errorMsg := none, attempts := 0 }

/-- `ws.onclose` for one live socket (no-op when no close event can fire):
clears the connected flag; an intentional close only resets the flag; an
unintentional close while mounted with `attempts < max` increments the
counter and schedules the single retry timer; otherwise, when
`attempts >= max`, it sets the max-reconnection error. -/
def wsOnClose (maxAttempts : Nat) (s : WSState) : WSState :=
  if s.liveSockets = 0 then s
  else
    let t : WSState :=
      { s with isConnected := false, liveSockets := s.liveSockets - 1 }
    if t.intentional then { t with intentional := false }
    else if t.mounted ∧ t.attempts < maxAttempts then
      { t with attempts := t.attempts + 1, hasTimer := true }
    else if maxAttempts ≤ t.attempts then
      { t with errorMsg := some maxReconnectMsg,
               maxErrorEmissions := t.maxErrorEmissions + 1 }
    else t

/-- The pending retry timer firing: the timeout callback runs `connect()`. -/
def wsTimerFire (s : WSState) : WSState :=
  if s.hasTimer then wsConnect { s with hasTimer := false } else s

/-- Manual `reconnect()`: `wsRef.current?.close()` — `intentionalCloseRef`
is left untouched — then `reconnectAttemptRef.current = 0` and `connect()`.
The closed socket stays live until its asynchronous close event fires. -/
def wsManualReconnect (s : WSState) : WSState :=
  wsConnect { s with attempts := 0 }

/-- Unmount cleanup: `mountedRef.current = false`, `clearTimeout`, and when a
socket exists `intentionalCloseRef.current = true` before closing it. -/
def wsUnmount (s : WSState) : WSState :=
  { s with mounted := false, hasTimer := false,
           intentional := s.intentional ∨ s.liveSockets ≠ 0 }

/-- Mount: `mountedRef.current = true`, then the first `connect()`. -/
def wsInitial : WSState :=
  wsConnect
    { attempts := 0, hasTimer := false, liveSockets := 0, isConnected := false,
      errorMsg := none, maxErrorEmissions := 0, intentional := false,
      mounted := true }

/-- The state after `n` consecutive connection failures from a fresh mount:
each failure is the pending retry timer firing (a no-op before the first
failure, when no timer exists yet) followed by the resulting socket's close
event. -/
def afterFails (maxAttempts : Nat) : Nat → WSState
  | 0 => wsInitial
  | n + 1 => wsOnClose maxAttempts (wsTimerFire (afterFails maxAttempts n))

/-! ## Poll loop (src/hooks/useAgentDBPolling.ts) -/

/-- The mutable state of one `useAgentDBPolling` session.  `inFlight` counts
fetch promises issued and not yet settled; `intervalActive` says whether the
polling effect's `setInterval` is installed. -/
structure PollState where
  fetching : Bool
  inFlight : Nat
  data : Option DashboardData
  errorMsg : Option String
  intervalActive : Bool
  mounted : Bool
  enabled : Bool
deriving DecidableEq, Repr

/-- The asynchronous events driving a polling session. -/
inductive PollEvent
  | tick
  | succeed (snap : DashboardData)
  | fail (msg : String)
  | setEnabled (b : Bool)
  | unmount
deriving DecidableEq, Repr

/-- A call of `fetchData()` (interval tick or initial fetch): the guard
`if (!mountedRef.current || fetchingRef.current || !enabled) return;` makes
it a no-op while a fetch is outstanding; otherwise `fetchingRef := true` and
the fetch is issued. -/
def pollTick (s : PollState) : PollState :=
  if ¬s.mounted ∨ s.fetching ∨ ¬s.enabled then s
  else { s with fetching := true, inFlight := s.inFlight + 1 }

/-- The outstanding fetch resolving successfully: `setData`, `setError(null)`,
and in `finally` (only while mounted) `fetchingRef := false`.  When unmounted
the early return skips the updates and `finally` leaves `fetchingRef` set. -/
def pollSucceed (snap : DashboardData) (s : PollState) : PollState :=
  if s.inFlight = 0 then s
  else
    let t : PollState := { s with inFlight := s.inFlight - 1 }
    if t.mounted then
      { t with data := some snap, errorMsg := none, fetching := false }
    else t

/-- The outstanding fetch failing (network error, `!response.ok`, or
`success: false`): the catch records the message, the held snapshot is left
unchanged, and `finally` clears `fetchingRef` while mounted. -/
def pollFail (msg : String) (s : PollState) : PollState :=
  if s.inFlight = 0 then s
  else
    let t : PollState := { s with inFlight := s.inFlight - 1 }
    if t.mounted then { t with errorMsg := some msg, fetching := false }
    else t

/-- The polling-interval effect re-running with a new `enabled` value:
installs the interval when enabled and clears it otherwise. -/
def pollSetEnabled (b : Bool) (s : PollState) : PollState :=
  { s with enabled := b, intervalActive := b }

/-- Unmount: `mountedRef := false` and the interval effect's cleanup. -/
def pollUnmount (s : PollState) : PollState :=
  { s with mounted := false, intervalActive := false }

/-- One event step of a polling session. -/
def pollStep (s : PollState) : PollEvent → PollState
  | .tick => pollTick s
  | .succeed snap => pollSucceed snap s
  | .fail msg => pollFail msg s
  | .setEnabled b => pollSetEnabled b s
  | .unmount => pollUnmount s

/-- A freshly mounted polling session with the given `enabled` prop. -/
def pollInit (enabled : Bool) : PollState :=
  { fetching := false, inFlight := 0, data := none, errorMsg := none,
    intervalActive := enabled, mounted := true, enabled := enabled }

/-- Running a polling session over a trace of events. -/
def pollRun (enabled : Bool) (events : List PollEvent) : PollState :=
  events.foldl pollStep (pollInit enabled)

/-! ## Supervisor (src/components/DashboardNew.tsx) -/

/-- `type ConnectionMode = 'websocket' | 'polling'`. -/
inductive ConnectionMode
  | websocket
  | polling
deriving DecidableEq, Repr

/-- The Dashboard component's relevant state: the mode flag plus both hooks'
states.  The WebSocket hook is instantiated unconditionally (it has no
enabled flag); the polling hook runs with `enabled: mode === 'polling'`. -/
structure SupState where
  mode : ConnectionMode
  ws : WSState
  poll : PollState
deriving DecidableEq, Repr

/-- The re-render after a mode change: the polling hook's interval effect
runs with `enabled: mode === 'polling'`.  The WebSocket hook receives no
input that depends on the mode and is left untouched. -/
def syncPolling (s : SupState) : SupState :=
  { s with poll := pollSetEnabled (decide (s.mode = .polling)) s.poll }

/-- `handleModeChange` with a non-null new mode (manual switch), or the
supervisor's own `setMode`. -/
def setMode (m : ConnectionMode) (s : SupState) : SupState :=
  syncPolling { s with mode := m }

/-- The automatic-fallback effect: when `mode === 'websocket'` and
`websocket.error.includes('Max reconnection')` — which among the hook's
error strings holds exactly for `maxReconnectMsg` — switch to polling. -/
def fallbackEffect (s : SupState) : SupState :=
  if s.mode = .websocket ∧ s.ws.errorMsg = some maxReconnectMsg then
    setMode .polling s
  else s

/-- The push transport counts as active while it owns a live socket or a
pending reconnect timer. -/
def wsActive (s : SupState) : Prop :=
  s.ws.liveSockets ≠ 0 ∨ s.ws.hasTimer = true

/-- The poll transport counts as active while its interval is installed. -/
def pollActive (s : SupState) : Prop :=
  s.poll.intervalActive = true

instance (s : SupState) : Decidable (wsActive s) :=
  inferInstanceAs (Decidable (_ ∨ _))

instance (s : SupState) : Decidable (pollActive s) :=
  inferInstanceAs (Decidable (_ = _))

/-- A healthy push session: one open socket, counter 0, no pending timer. -/
def wsConnectedIdle : WSState :=
  { attempts := 0, hasTimer := false, liveSockets := 1, isConnected := true,
    errorMsg := none, maxErrorEmissions := 0, intentional := false,
    mounted := true }

/-- A dashboard in websocket mode with a healthy connected push socket and
inactive polling. -/
def supHealthy : SupState :=
  { mode := .websocket, ws := wsConnectedIdle, poll := pollInit false }

/-- A dashboard in websocket mode whose push machine has just exhausted its
reconnection budget, with an arbitrary polling-hook state. -/
def supAfterExhaustion (maxAttempts : Nat) (p : PollState) : SupState :=
  { mode := .websocket, ws := afterFails maxAttempts (maxAttempts + 1),
    poll := p }

/-! ## Theorems -/

/-! ### C5: batch inserts and totalEvents -/

lemma applyBatches_totalEvents :
    ∀ (bs : List (List DashboardMetric)) (db : MetricsDB),
      getTotalEvents (applyBatches db bs) =
        getTotalEvents db + (bs.map List.length).sum := by
  intro bs
  induction bs with
  | nil => intro db; simp [applyBatches, getTotalEvents]
  | cons b bs ih =>
      intro db
      have h1 : applyBatches db (b :: bs) = applyBatches (db ++ b) bs := rfl
      rw [h1, ih]
      simp [getTotalEvents, List.sum_cons]
      omega

lemma batchStates_totalEvents :
    ∀ (bs : List (List DashboardMetric)) (db : MetricsDB),
      ∀ s ∈ batchStates db bs, ∃ k ≤ bs.length,
        getTotalEvents s =
          getTotalEvents db + ((bs.take k).map List.length).sum := by
  intro bs
  induction bs with
  | nil =>
      intro db s hs
      simp only [batchStates, List.mem_singleton] at hs
      exact ⟨0, by simp, by simp [hs]⟩
  | cons b bs ih =>
      intro db s hs
      simp only [batchStates, List.mem_cons] at hs
      rcases hs with rfl | hs
      · exact ⟨0, by simp, by simp⟩
      · obtain ⟨k, hk, hsum⟩ := ih ((insertMetricsBatch db b).1) s hs
        refine ⟨k + 1, by simpa using hk, ?_⟩
        simp only [insertMetricsBatch, getTotalEvents, List.length_append]
          at hsum
        simp only [List.take_succ_cons, List.map_cons, List.sum_cons, hsum,
          getTotalEvents]
        omega

/-- Claim C5 (confirmed): after any sequence of `insertBatch` calls,
`totalEvents` equals the initial count plus the sum of the batch sizes; each
batch is one atomic transaction, so every state a read can observe carries a
count equal to the initial count plus the sum of some prefix of whole
batches — never a value strictly inside a batch. -/
theorem insertBatch_totalEvents_atomic
    (db : MetricsDB) (bs : List (List DashboardMetric)) :
    (∀ ms : List DashboardMetric,
        getTotalEvents (insertMetricsBatch db ms).1 =
          getTotalEvents db + ms.length) ∧
    getTotalEvents (applyBatches db bs) =
      getTotalEvents db + (bs.map List.length).sum ∧
    ∀ s ∈ batchStates db bs, ∃ k ≤ bs.length,
      getTotalEvents s =
        getTotalEvents db + ((bs.take k).map List.length).sum := by
  refine ⟨?_, applyBatches_totalEvents bs db, batchStates_totalEvents bs db⟩
  intro ms
  simp [insertMetricsBatch, getTotalEvents]

/-! ### C8: retention cleanup -/

/-- Claim C8 (confirmed): `cleanupOldData` keeps the stored points in order
(a sublist of the table), retains exactly those with `cutoff ≤ timestamp`,
reports as deleted exactly the number of points with `timestamp < cutoff`,
and is idempotent for a fixed cutoff: a second identical call deletes 0 and
changes nothing.  The final conjunct is the spec's concrete scenario: with
points at `now - 30h` and `now - 1h`, `cleanup(hours=24)` keeps only the
`now - 1h` point and reports `deleted = 1`. -/
theorem cleanup_removes_exactly_old
    (db : MetricsDB) (now hoursToKeep : Int) :
    List.Sublist (cleanupOldData db now hoursToKeep).1 db ∧
    (∀ m ∈ (cleanupOldData db now hoursToKeep).1,
        now - hoursToKeep * 3600000 ≤ m.timestamp) ∧
    (∀ m ∈ db, now - hoursToKeep * 3600000 ≤ m.timestamp →
        m ∈ (cleanupOldData db now hoursToKeep).1) ∧
    (cleanupOldData db now hoursToKeep).2 =
      db.countP (fun m => m.timestamp < now - hoursToKeep * 3600000) ∧
    db.length = ((cleanupOldData db now hoursToKeep).1).length +
      (cleanupOldData db now hoursToKeep).2 ∧
    cleanupOldData (cleanupOldData db now hoursToKeep).1 now hoursToKeep =
      ((cleanupOldData db now hoursToKeep).1, 0) ∧
    (∀ vOld vNew : Int,
        cleanupOldData
          [{ timestamp := now - 30 * 3600000, metricType := .line,
             category := none, value := vOld },
           { timestamp := now - 3600000, metricType := .line,
             category := none, value := vNew }] now 24 =
        ([{ timestamp := now - 3600000, metricType := .line,
            category := none, value := vNew }], 1)) := by
  refine ⟨?_, ?_, ?_, ?_, ?_, ?_, ?_⟩
  · exact List.filter_sublist db
  · intro m hm
    simpa using (List.mem_filter.mp hm).2
  · intro m hm h
    exact List.mem_filter.mpr ⟨hm, by simpa using h⟩
  · simp [cleanupOldData, List.countP_eq_length_filter]
  · simp only [cleanupOldData]
    rw [← List.countP_eq_length_filter, ← List.countP_eq_length_filter]
    rw [List.length_eq_countP_add_countP
      (p := fun m : DashboardMetric =>
        decide (now - hoursToKeep * 3600000 ≤ m.timestamp)) (l := db)]
    congr 1
    apply List.countP_congr
    intro m _
    simp only [decide_eq_true_eq]
    omega
  · have hself :
        List.filter
          (fun m => decide (now - hoursToKeep * 3600000 ≤ m.timestamp))
          (List.filter
            (fun m => decide (now - hoursToKeep * 3600000 ≤ m.timestamp))
            db) =
        List.filter
          (fun m => decide (now - hoursToKeep * 3600000 ≤ m.timestamp)) db :=
      List.filter_eq_self.mpr (fun m hm => (List.mem_filter.mp hm).2)
    have hnil :
        List.filter
          (fun m => decide (m.timestamp < now - hoursToKeep * 3600000))
          (List.filter
            (fun m => decide (now - hoursToKeep * 3600000 ≤ m.timestamp))
            db) = [] := by
      apply List.filter_eq_nil_iff.mpr
      intro m hm
      have h2 := (List.mem_filter.mp hm).2
      simp only [decide_eq_true_eq] at h2 ⊢
      omega
    simp only [cleanupOldData]
    rw [hself, hnil]
    simp
  · intro vOld vNew
    have h1 : ¬ (now - 24 * 3600000 ≤ now - 30 * 3600000) := by omega
    have h2 : now - 24 * 3600000 ≤ now - 3600000 := by omega
    have h3 : now - 30 * 3600000 < now - 24 * 3600000 := by omega
    have h4 : ¬ (now - 3600000 < now - 24 * 3600000) := by omega
    simp [cleanupOldData, List.filter_cons, h1, h2, h3, h4]
    rw [if_neg (by omega), if_pos (by omega)]

/-! ### C4: broadcast send failures -/

/-- Claim C4 (corrected), counterexample: a connection whose socket is
already closing — precisely the claim's example of a failing send — is
skipped by `broadcastUpdate` (it is not sent the update) and remains in the
connection set afterwards, instead of being removed as the claim states. -/
theorem broadcast_no_removal_counterexample :
    (broadcastUpdate [{ id := 0, readyState := .CLOSING }]).1 =
      [{ id := 0, readyState := .CLOSING }] ∧
    ({ id := 0, readyState := .CLOSING } : ClientConn) ∈
      (broadcastUpdate [{ id := 0, readyState := .CLOSING }]).1 ∧
    (broadcastUpdate [{ id := 0, readyState := .CLOSING }]).2 = [] := by
  decide

/-- Claim C4 (corrected), amended: `broadcastUpdate` never removes a
connection: the set is unchanged by a broadcast; the `update` message is
sent exactly to the connections whose `readyState` is `OPEN`, in set order
(so the loop does continue past non-OPEN entries, and every OPEN connection
receives the message regardless of its position); removal of dead
connections happens only in the socket close/error handlers
(`removeClient`). -/
theorem broadcast_skips_and_keeps (clients : List ClientConn) :
    (broadcastUpdate clients).1 = clients ∧
    (broadcastUpdate clients).2 =
      (clients.filter (fun c => c.readyState = .OPEN)).map (fun c => c.id) ∧
    (∀ c ∈ clients, c.readyState = .OPEN →
        c.id ∈ (broadcastUpdate clients).2) ∧
    (∀ c ∈ clients, c ∈ (broadcastUpdate clients).1) := by
  unfold broadcastUpdate
  by_cases h : clients.length = 0
  · rw [List.length_eq_zero] at h
    subst h
    simp
  · rw [if_neg h]
    refine ⟨rfl, rfl, ?_, fun c hc => hc⟩
    intro c hc hopen
    exact List.mem_map.mpr ⟨c, List.mem_filter.mpr ⟨hc, by simp [hopen]⟩, rfl⟩

/-! ### C6: no validation on the administrative routes -/

lemma seedMetrics_length (now intervalMs : Int) (v : Nat → Int)
    (vb vp : String → Int) :
    (seedMetrics now intervalMs v vb vp).length = 69 := by
  simp [seedMetrics, seedLineMetrics, seedBarMetrics, seedPieMetrics,
    seedCategories]

/-- Claim C6 (corrected), counterexample: the seed route does not validate
its body.  The malformed body `{ hours: "2" }` (a string where a number is
required) is not rejected: JavaScript's implicit coercion turns it into the
number 2, the generator runs, and the store grows by 69 points under a
success response — the opposite of "rejected immediately … no store
operation is executed". -/
theorem seed_no_validation_counterexample :
    (seedHandler [] 0 (fun _ => 20) (fun _ => 100) (fun _ => 50)
        (some (.str ['2']))).2 = .okSeeded 69 ∧
    (seedHandler [] 0 (fun _ => 20) (fun _ => 100) (fun _ => 50)
        (some (.str ['2']))).1.length = 69 := by
  decide

/-- Claim C6 (corrected), amended: the seed and cleanup routes perform no
validation.  A malformed `hours` that JavaScript coerces to a number (a
digit string, a boolean) is accepted: the generator runs and the store
grows by 69 points with a success response.  A malformed `hours` that
coerces to NaN makes the timestamp computation throw before any store
write; the route's catch then answers the generic 500 payload — the same
'Failed to seed data' / 'Failed to cleanup data' message as a genuine store
failure, not a validation message — with the store unchanged. -/
theorem seed_cleanup_no_validation
    (db : MetricsDB) (now : Int) (v : Nat → Int) (vb vp : String → Int)
    (j : JsVal) :
    (∀ n, toNumber j = some n →
        (seedHandler db now v vb vp (some j)).2 = .okSeeded 69 ∧
        (seedHandler db now v vb vp (some j)).1.length = db.length + 69) ∧
    (toNumber j = none →
        seedHandler db now v vb vp (some j) =
          (db, .serverError "Failed to seed data")) ∧
    (toNumber j = none →
        cleanupHandler db now (some j) =
          (db, .serverError "Failed to cleanup data")) := by
  refine ⟨?_, ?_, ?_⟩
  · intro n hn
    simp only [seedHandler, seedHistoricalData, Option.getD_some, hn,
      insertMetricsBatch]
    exact ⟨by rw [seedMetrics_length], by simp [seedMetrics_length]⟩
  · intro hn
    simp [seedHandler, seedHistoricalData, hn]
  · intro hn
    simp [cleanupHandler, hn]

/-- Witness instantiating the amended C6 theorem: `hours: true` seeds
successfully (no rejection), `hours: "a"` yields the generic cleanup
failure with the store untouched. -/
theorem seed_cleanup_no_validation_witness :
    (seedHandler [] 0 (fun _ => 20) (fun _ => 100) (fun _ => 50)
        (some (.boolean true))).2 = .okSeeded 69 ∧
    cleanupHandler [] 0 (some (.str ['a'])) =
      ([], .serverError "Failed to cleanup data") :=
  ⟨((seed_cleanup_no_validation [] 0 (fun _ => 20) (fun _ => 100)
      (fun _ => 50) (.boolean true)).1 1 (by decide)).1,
   (seed_cleanup_no_validation [] 0 (fun _ => 20) (fun _ => 100)
      (fun _ => 50) (.str ['a'])).2.2 (by decide)⟩

/-! ### C10: per-category aggregates -/

lemma getAggregates_fst (db : MetricsDB) (mt : MetricType) :
    (getAggregates db mt).map Prod.fst =
      (categoriesOf db mt).insertionSort (· ≤ ·) := by
  simp [getAggregates, List.map_map, Function.comp_def]

lemma getAggregates_sorted (db : MetricsDB) (mt : MetricType) :
    ((getAggregates db mt).map Prod.fst).Sorted (· ≤ ·) := by
  rw [getAggregates_fst]
  exact List.sorted_insertionSort _ _

lemma getAggregates_nodup (db : MetricsDB) (mt : MetricType) :
    ((getAggregates db mt).map Prod.fst).Nodup := by
  rw [getAggregates_fst]
  exact (List.perm_insertionSort _ _).nodup_iff.mpr
    (List.nodup_dedup _)

lemma getAggregates_mem (db : MetricsDB) (mt : MetricType) (c : String) :
    c ∈ (getAggregates db mt).map Prod.fst ↔
      ∃ m ∈ db, m.metricType = mt ∧ m.category = some c := by
  rw [getAggregates_fst, (List.perm_insertionSort _ _).mem_iff]
  simp only [categoriesOf, List.mem_dedup, List.mem_filterMap]
  constructor
  · rintro ⟨m, hm, hf⟩
    by_cases h : m.metricType = mt
    · rw [if_pos h] at hf
      exact ⟨m, hm, h, hf⟩
    · rw [if_neg h] at hf
      exact absurd hf (by simp)
  · rintro ⟨m, hm, h, hc⟩
    exact ⟨m, hm, by rw [if_pos h, hc]⟩

lemma getAggregates_values (db : MetricsDB) (mt : MetricType) :
    ∀ p ∈ getAggregates db mt, p.2 = sumFor db mt p.1 := by
  intro p hp
  obtain ⟨c, _, rfl⟩ := List.mem_map.mp hp
  rfl

lemma sumFor_append_none (db : MetricsDB) (mt : MetricType)
    (m : DashboardMetric) (hm : m.category = none) (c : String) :
    sumFor (db ++ [m]) mt c = sumFor db mt c := by
  simp [sumFor, List.filter_append, List.filter_cons, hm]

lemma categoriesOf_append_none (db : MetricsDB) (mt : MetricType)
    (m : DashboardMetric) (hm : m.category = none) :
    categoriesOf (db ++ [m]) mt = categoriesOf db mt := by
  simp only [categoriesOf, List.filterMap_append]
  have : List.filterMap
      (fun x => if x.metricType = mt then x.category else none) [m] = [] := by
    simp only [List.filterMap_cons, List.filterMap_nil, hm]
    by_cases h : m.metricType = mt <;> simp [h, hm]
  rw [this, List.append_nil]

lemma getAggregates_append_none (db : MetricsDB) (mt : MetricType)
    (m : DashboardMetric) (hm : m.category = none) :
    getAggregates (db ++ [m]) mt = getAggregates db mt := by
  simp only [getAggregates, categoriesOf_append_none db mt m hm]
  exact List.map_congr_left
    (fun c _ => by rw [sumFor_append_none db mt m hm c])

/-- Claim C10 (confirmed): the bar and pie aggregates have exactly one
entry per distinct non-null category of the matching `metricType`, ordered
ascending by category, each entry carrying the sum of `value` over the
matching rows; a bar or pie point stored with a null category contributes
to no aggregate entry but is still counted by `getTotalEvents`. -/
theorem aggregates_per_category (db : MetricsDB) :
    (((getBarChartData db).map Prod.fst).Sorted (· ≤ ·) ∧
      ((getBarChartData db).map Prod.fst).Nodup ∧
      (∀ c, c ∈ (getBarChartData db).map Prod.fst ↔
        ∃ m ∈ db, m.metricType = .bar ∧ m.category = some c) ∧
      (∀ p ∈ getBarChartData db, p.2 = sumFor db .bar p.1)) ∧
    (((getPieChartData db).map Prod.fst).Sorted (· ≤ ·) ∧
      ((getPieChartData db).map Prod.fst).Nodup ∧
      (∀ c, c ∈ (getPieChartData db).map Prod.fst ↔
        ∃ m ∈ db, m.metricType = .pie ∧ m.category = some c) ∧
      (∀ p ∈ getPieChartData db, p.2 = sumFor db .pie p.1)) ∧
    (∀ m : DashboardMetric, m.category = none →
      getBarChartData (db ++ [m]) = getBarChartData db ∧
      getPieChartData (db ++ [m]) = getPieChartData db ∧
      getTotalEvents (db ++ [m]) = getTotalEvents db + 1) := by
  refine ⟨⟨getAggregates_sorted db .bar, getAggregates_nodup db .bar,
      fun c => getAggregates_mem db .bar c, getAggregates_values db .bar⟩,
    ⟨getAggregates_sorted db .pie, getAggregates_nodup db .pie,
      fun c => getAggregates_mem db .pie c, getAggregates_values db .pie⟩,
    ?_⟩
  intro m hm
  refine ⟨getAggregates_append_none db .bar m hm,
    getAggregates_append_none db .pie m hm, ?_⟩
  simp [getTotalEvents]

/-- Witness instantiating the C10 theorem: an uncategorized bar point in a
one-row store is invisible to both aggregates yet counted by
`getTotalEvents`. -/
theorem aggregates_per_category_witness :
    getBarChartData
        ([] ++ [{ timestamp := 0, metricType := .bar, category := none,
                  value := 7 }]) = getBarChartData [] ∧
    getTotalEvents
        ([] ++ [{ timestamp := 0, metricType := .bar, category := none,
                  value := 7 }]) = getTotalEvents [] + 1 := by
  have h := (aggregates_per_category []).2.2
    { timestamp := 0, metricType := .bar, category := none, value := 7 }
    rfl
  exact ⟨h.1, h.2.2⟩

/-! ### C7: line series ordering and the one-hour seed scenario -/

lemma getLineChartData_sorted (db : MetricsDB) (limit : Nat) :
    ((getLineChartData db limit).map Prod.fst).Sorted (· ≤ ·) := by
  unfold getLineChartData
  have h1 : (List.insertionSort tsDesc
      (db.filter (fun m => m.metricType = .line))).Sorted tsDesc :=
    List.sorted_insertionSort tsDesc _
  have h2 : ((List.insertionSort tsDesc
      (db.filter (fun m => m.metricType = .line))).take limit).Sorted
        tsDesc :=
    h1.sublist (List.take_sublist limit _)
  have h3 := (h2.map (fun m => (m.timestamp, m.value))
    (fun a b (h : tsDesc a b) => h)).map Prod.fst
    (S := fun x y : Int => y ≤ x) (fun a b h => h)
  rw [List.map_reverse]
  exact List.pairwise_reverse.mpr h3

lemma getLineChartData_length (db : MetricsDB) (limit : Nat) :
    (getLineChartData db limit).length =
      min limit (db.filter (fun m => m.metricType = .line)).length := by
  unfold getLineChartData
  rw [List.length_reverse, List.length_map, List.length_take,
    (List.perm_insertionSort tsDesc _).length_eq]

lemma seedMetrics_filter_line (now intervalMs : Int) (v : Nat → Int)
    (vb vp : String → Int) :
    (seedMetrics now intervalMs v vb vp).filter
        (fun m => m.metricType = .line) =
      seedLineMetrics now intervalMs v := by
  simp only [seedMetrics, List.filter_append]
  rw [List.filter_eq_self.mpr, List.filter_eq_nil_iff.mpr,
    List.filter_eq_nil_iff.mpr, List.append_nil, List.append_nil]
  · intro m hm
    obtain ⟨c, _, rfl⟩ := List.mem_map.mp hm
    simp [seedPieMetrics]
  · intro m hm
    obtain ⟨c, _, rfl⟩ := List.mem_map.mp hm
    simp [seedBarMetrics]
  · intro m hm
    obtain ⟨j, _, rfl⟩ := List.mem_map.mp hm
    simp

lemma seedLineMetrics_length (now intervalMs : Int) (v : Nat → Int) :
    (seedLineMetrics now intervalMs v).length = 61 := by
  simp [seedLineMetrics]

lemma seedLineMetrics_ts_le (now intervalMs : Int) (hi : 0 ≤ intervalMs)
    (v : Nat → Int) :
    ∀ m ∈ seedLineMetrics now intervalMs v, m.timestamp ≤ now := by
  intro m hm
  obtain ⟨j, hj, rfl⟩ := List.mem_map.mp hm
  rw [List.mem_range] at hj
  have hj60 : ((j : Int)) ≤ 60 := by omega
  have hnn : (0 : Int) ≤ (60 - (j : Int)) * intervalMs :=
    mul_nonneg (by omega) hi
  simp only []
  linarith

lemma seedLineMetrics_mem_now (now intervalMs : Int) (v : Nat → Int) :
    ∃ m ∈ seedLineMetrics now intervalMs v, m.timestamp = now := by
  refine ⟨_, List.mem_map.mpr ⟨60, List.mem_range.mpr (by omega), rfl⟩, ?_⟩
  norm_num

lemma seeded_lineChart (now : Int) (v : Nat → Int) (vb vp : String → Int) :
    (getLineChartData (seedMetrics now 60000 v vb vp) 10).length = 10 ∧
    ((getLineChartData (seedMetrics now 60000 v vb vp) 10).map
        Prod.fst).getLast? = some now := by
  constructor
  · rw [getLineChartData_length, seedMetrics_filter_line,
      seedLineMetrics_length]
    norm_num
  · unfold getLineChartData
    rw [seedMetrics_filter_line]
    have hlen : (List.insertionSort tsDesc
        (seedLineMetrics now 60000 v)).length = 61 := by
      rw [(List.perm_insertionSort tsDesc _).length_eq,
        seedLineMetrics_length]
    rcases hs : List.insertionSort tsDesc (seedLineMetrics now 60000 v) with
      _ | ⟨a, rest⟩
    · rw [hs] at hlen
      simp at hlen
    · have hts : a.timestamp = now := by
        have hmem : a ∈ seedLineMetrics now 60000 v :=
          (List.perm_insertionSort tsDesc _).mem_iff.mp
            (hs ▸ List.mem_cons_self a rest)
        have hle : a.timestamp ≤ now :=
          seedLineMetrics_ts_le now 60000 (by norm_num) v a hmem
        obtain ⟨m0, hm0, hm0ts⟩ := seedLineMetrics_mem_now now 60000 v
        have hm0s : m0 ∈ a :: rest := by
          rw [← hs]
          exact (List.perm_insertionSort tsDesc _).mem_iff.mpr hm0
        rcases List.mem_cons.mp hm0s with rfl | hm0rest
        · exact hm0ts
        · have hsorted := List.sorted_insertionSort tsDesc
            (seedLineMetrics now 60000 v)
          rw [hs] at hsorted
          have : tsDesc a m0 := List.rel_of_sorted_cons hsorted m0 hm0rest
          have : m0.timestamp ≤ a.timestamp := this
          omega
      rw [List.map_reverse, List.getLast?_reverse, List.take_succ_cons,
        List.map_cons, List.map_cons, List.head?_cons]
      simp [hts]

/-- Claim C7 (confirmed): for every store state and limit,
`getLineChartData` returns at most `limit` points with non-decreasing
timestamps; and after seeding one hour of history on an empty store
(`seedHistoricalData` with `hours = 1`: 61 line points a minute apart plus
the categorical points, all timestamps at most `now` with `now` attained),
the dashboard snapshot's `lineChartData` has length 10 and its last
element's timestamp is `now`, the maximum inserted timestamp. -/
theorem lineSeries_sorted_and_seed_scenario (db : MetricsDB) (limit : Nat)
    (now : Int) (v : Nat → Int) (vb vp : String → Int) :
    ((getLineChartData db limit).map Prod.fst).Sorted (· ≤ ·) ∧
    (getLineChartData db limit).length ≤ limit ∧
    seedHistoricalData [] now v vb vp (.num 1) =
      .ok (seedMetrics now 60000 v vb vp, 69) ∧
    (getDashboardData (seedMetrics now 60000 v vb vp) now).lineChartData.length
      = 10 ∧
    ((getDashboardData (seedMetrics now 60000 v vb vp) now).lineChartData.map
        Prod.fst).getLast? = some now ∧
    (∀ m ∈ seedMetrics now 60000 v vb vp, m.timestamp ≤ now) ∧
    (∃ m ∈ seedMetrics now 60000 v vb vp, m.timestamp = now) := by
  refine ⟨getLineChartData_sorted db limit, ?_, ?_, ?_, ?_, ?_, ?_⟩
  · rw [getLineChartData_length]
    exact min_le_left _ _
  · have h1 : seedHistoricalData [] now v vb vp (.num 1) =
        .ok (seedMetrics now (1 * 60000) v vb vp,
          (seedMetrics now (1 * 60000) v vb vp).length) := rfl
    rw [h1, seedMetrics_length]
    norm_num
  · simp only [getDashboardData]
    exact (seeded_lineChart now v vb vp).1
  · simp only [getDashboardData]
    exact (seeded_lineChart now v vb vp).2
  · intro m hm
    simp only [seedMetrics, List.mem_append] at hm
    rcases hm with (hm | hm) | hm
    · exact seedLineMetrics_ts_le now 60000 (by norm_num) v m hm
    · obtain ⟨c, _, rfl⟩ := List.mem_map.mp hm
      simp [seedBarMetrics]
    · obtain ⟨c, _, rfl⟩ := List.mem_map.mp hm
      simp [seedPieMetrics]
  · obtain ⟨m, hm, hts⟩ := seedLineMetrics_mem_now now 60000 v
    exact ⟨m, by simp [seedMetrics, List.mem_append, hm], hts⟩

/-! ### C1: the reconnection budget -/

lemma afterFails_le_max (maxAttempts : Nat) (hmax : 1 ≤ maxAttempts) :
    ∀ n, 1 ≤ n → n ≤ maxAttempts →
      afterFails maxAttempts n =
        { attempts := n, hasTimer := true, liveSockets := 0,
          isConnected := false, errorMsg := none, maxErrorEmissions := 0,
          intentional := false, mounted := true } := by
  intro n
  induction n with
  | zero => omega
  | succ n ih =>
      intro _ hle
      by_cases hn : n = 0
      · subst hn
        have h0 : (0 : Nat) < maxAttempts := hmax
        simp [afterFails, wsInitial, wsConnect, wsTimerFire, wsOnClose, h0]
      · have hlt : n < maxAttempts := by omega
        have hstate := ih (by omega) (by omega)
        simp only [afterFails, hstate]
        simp [wsTimerFire, wsConnect, wsOnClose, hlt]

lemma afterFails_exhausted (maxAttempts : Nat) (hmax : 1 ≤ maxAttempts) :
    afterFails maxAttempts (maxAttempts + 1) =
      { attempts := maxAttempts, hasTimer := false, liveSockets := 0,
        isConnected := false, errorMsg := some maxReconnectMsg,
        maxErrorEmissions := 1, intentional := false, mounted := true } := by
  have h := afterFails_le_max maxAttempts hmax maxAttempts hmax le_rfl
  simp only [afterFails, h]
  simp [wsTimerFire, wsConnect, wsOnClose]

lemma afterFails_stuck (maxAttempts : Nat) (hmax : 1 ≤ maxAttempts) :
    ∀ k, afterFails maxAttempts (maxAttempts + 1 + k) =
      afterFails maxAttempts (maxAttempts + 1) := by
  intro k
  induction k with
  | zero => rfl
  | succ k ih =>
      have hidx : maxAttempts + 1 + (k + 1) = (maxAttempts + 1 + k) + 1 := by
        omega
      rw [hidx]
      have hstep : afterFails maxAttempts ((maxAttempts + 1 + k) + 1) =
          wsOnClose maxAttempts
            (wsTimerFire (afterFails maxAttempts (maxAttempts + 1 + k))) :=
        rfl
      rw [hstep, ih, afterFails_exhausted maxAttempts hmax]
      simp [wsTimerFire, wsOnClose]

/-- Claim C1 (corrected), counterexample: with the default bound of 10,
after exactly 10 consecutive connection failures the hook has emitted no
error signal at all, the counter holds 10, and a further retry timer is
scheduled — `FAILED` is not reached at the point the claim states. -/
theorem reconnect_budget_counterexample :
    (afterFails 10 10).maxErrorEmissions = 0 ∧
    (afterFails 10 10).errorMsg = none ∧
    (afterFails 10 10).hasTimer = true ∧
    (afterFails 10 10).attempts = 10 := by
  decide

/-- Claim C1 (corrected), amended: the counter resets to 0 on every
successful open and increments by exactly 1 per unintentional close while
below the bound, but after exactly `max` consecutive failures the machine
holds `attempts = max` with another retry scheduled and no error emitted;
the 'Max reconnection attempts reached' signal is emitted on the
`(max+1)`-th consecutive failure, exactly once, after which no retry is
ever scheduled again (the machine is stuck in the failed state). -/
theorem reconnect_budget_amended (maxAttempts : Nat)
    (hmax : 1 ≤ maxAttempts) :
    (∀ s, (wsOnOpen s).attempts = 0) ∧
    (∀ s : WSState, s.liveSockets ≠ 0 → s.intentional = false →
      s.mounted = true → s.attempts < maxAttempts →
      (wsOnClose maxAttempts s).attempts = s.attempts + 1 ∧
      (wsOnClose maxAttempts s).hasTimer = true ∧
      (wsOnClose maxAttempts s).maxErrorEmissions = s.maxErrorEmissions) ∧
    (afterFails maxAttempts maxAttempts).attempts = maxAttempts ∧
    (afterFails maxAttempts maxAttempts).hasTimer = true ∧
    (afterFails maxAttempts maxAttempts).maxErrorEmissions = 0 ∧
    afterFails maxAttempts (maxAttempts + 1) =
      { attempts := maxAttempts, hasTimer := false, liveSockets := 0,
        isConnected := false, errorMsg := some maxReconnectMsg,
        maxErrorEmissions := 1, intentional := false, mounted := true } ∧
    (∀ k, afterFails maxAttempts (maxAttempts + 1 + k) =
      afterFails maxAttempts (maxAttempts + 1)) := by
  have hrun := afterFails_le_max maxAttempts hmax maxAttempts hmax le_rfl
  refine ⟨fun s => rfl, ?_, by rw [hrun], by rw [hrun], by rw [hrun],
    afterFails_exhausted maxAttempts hmax, afterFails_stuck maxAttempts hmax⟩
  intro s hsock hint hm hlt
  simp [wsOnClose, hsock, hint, hm, hlt]

/-- Witness instantiating the amended C1 theorem at the default bound 10:
the 11th consecutive failure produces the failed state with exactly one
error emission and no pending timer, and an unintentional close below the
bound increments the counter by one. -/
theorem reconnect_budget_amended_witness :
    afterFails 10 (10 + 1) =
      { attempts := 10, hasTimer := false, liveSockets := 0,
        isConnected := false, errorMsg := some maxReconnectMsg,
        maxErrorEmissions := 1, intentional := false, mounted := true } ∧
    (wsOnClose 10 wsConnectedIdle).attempts = wsConnectedIdle.attempts + 1 := by
  have h := reconnect_budget_amended 10 (by norm_num)
  exact ⟨h.2.2.2.2.2.1,
    (h.2.1 wsConnectedIdle (by decide) rfl rfl (by decide)).1⟩

/-! ### C3: manual reconnect -/

/-- Claim C3 (corrected), counterexample: `reconnect()` leaves the
intentional-close flag unset; right after it the manager owns two sockets
(the closing one plus the new one); when the old socket's close event fires
its handler schedules a retry timer — the claim says it schedules
nothing — and once that timer fires the manager owns two live sockets. -/
theorem manual_reconnect_counterexample :
    (wsManualReconnect wsConnectedIdle).intentional = false ∧
    (wsManualReconnect wsConnectedIdle).liveSockets = 2 ∧
    (wsOnClose 10 (wsManualReconnect wsConnectedIdle)).hasTimer = true ∧
    (wsOnClose 10 (wsManualReconnect wsConnectedIdle)).attempts = 1 ∧
    (wsTimerFire
      (wsOnClose 10 (wsManualReconnect wsConnectedIdle))).liveSockets = 2 := by
  decide

/-- Claim C3 (corrected), amended: a manual reconnect closes the existing
socket without marking it intentional, resets the attempt counter to 0 and
opens a new socket at once; because the flag stays unset, the old socket's
later close event takes the unintentional path — incrementing the counter
and scheduling a retry whose firing opens yet another socket — so the
manager transiently owns two sockets and a pending timer: the
at-most-one-socket / at-most-one-timer invariant does not survive a manual
reconnect. -/
theorem manual_reconnect_amended (s : WSState) (maxAttempts : Nat)
    (hm : s.mounted = true) (hsock : s.liveSockets ≠ 0)
    (hint : s.intentional = false) (hmax : 1 ≤ maxAttempts) :
    (wsManualReconnect s).attempts = 0 ∧
    (wsManualReconnect s).intentional = false ∧
    (wsManualReconnect s).liveSockets = s.liveSockets + 1 ∧
    (wsOnClose maxAttempts (wsManualReconnect s)).hasTimer = true ∧
    (wsOnClose maxAttempts (wsManualReconnect s)).attempts = 1 ∧
    (wsTimerFire
      (wsOnClose maxAttempts (wsManualReconnect s))).liveSockets =
        s.liveSockets + 1 := by
  have h0 : (0 : Nat) < maxAttempts := hmax
  simp [wsManualReconnect, wsConnect, wsOnClose, wsTimerFire, hm, hsock,
    hint, h0]

/-- Witness instantiating the amended C3 theorem on a healthy connected
session with the default bound 10. -/
theorem manual_reconnect_amended_witness :
    (wsManualReconnect wsConnectedIdle).attempts = 0 ∧
    (wsOnClose 10 (wsManualReconnect wsConnectedIdle)).hasTimer = true ∧
    (wsTimerFire
      (wsOnClose 10 (wsManualReconnect wsConnectedIdle))).liveSockets =
        wsConnectedIdle.liveSockets + 1 := by
  have h := manual_reconnect_amended wsConnectedIdle 10 rfl
    (by decide) rfl (by norm_num)
  exact ⟨h.1, h.2.2.2.1, h.2.2.2.2.2⟩

/-! ### C9: the poll loop's in-flight guard -/

/-- The inductive invariant of a polling session: at most one fetch is
outstanding, and an outstanding fetch implies the guard flag is set. -/
def pollInvariant (s : PollState) : Prop :=
  s.inFlight ≤ 1 ∧ (s.inFlight = 1 → s.fetching = true)

lemma pollStep_invariant (s : PollState) (e : PollEvent)
    (h : pollInvariant s) : pollInvariant (pollStep s e) := by
  obtain ⟨h1, h2⟩ := h
  cases e with
  | tick =>
      simp only [pollStep, pollTick]
      split
      · exact ⟨h1, h2⟩
      · rename_i hcond
        push_neg at hcond
        have hf : s.fetching = false := by
          cases hfe : s.fetching
          · rfl
          · exact absurd hfe hcond.2.1
        have h0 : s.inFlight = 0 := by
          rcases Nat.lt_or_ge s.inFlight 1 with h | h
          · omega
          · have : s.inFlight = 1 := by omega
            rw [h2 this] at hf
            cases hf
        exact ⟨by simp [h0], fun _ => rfl⟩
  | succeed snap =>
      simp only [pollStep, pollSucceed]
      split
      · exact ⟨h1, h2⟩
      · split <;> exact ⟨by simp; omega, by simp; omega⟩
  | fail msg =>
      simp only [pollStep, pollFail]
      split
      · exact ⟨h1, h2⟩
      · split <;> exact ⟨by simp; omega, by simp; omega⟩
  | setEnabled b => exact ⟨h1, h2⟩
  | unmount => exact ⟨h1, h2⟩

lemma pollRun_invariant (enabled : Bool) (events : List PollEvent) :
    pollInvariant (pollRun enabled events) := by
  have hinit : pollInvariant (pollInit enabled) := ⟨by simp [pollInit], by
    simp [pollInit]⟩
  rw [pollRun]
  generalize pollInit enabled = s at hinit ⊢
  induction events generalizing s with
  | nil => exact hinit
  | cons e es ih => exact ih _ (pollStep_invariant s e hinit)

/-- Claim C9 (confirmed): over every event trace the poll loop never has
two fetches in flight; a tick arriving while a fetch is outstanding is a
no-op (the state is unchanged); and a failed fetch records an error but
leaves the held snapshot, the polling interval, the enabled flag and the
mounted flag untouched, so the loop keeps ticking at its fixed cadence. -/
theorem poll_inflight_guard :
    (∀ (enabled : Bool) (events : List PollEvent),
        (pollRun enabled events).inFlight ≤ 1) ∧
    (∀ s : PollState, s.fetching = true → pollStep s .tick = s) ∧
    (∀ (s : PollState) (msg : String),
        (pollStep s (.fail msg)).data = s.data ∧
        (pollStep s (.fail msg)).intervalActive = s.intervalActive ∧
        (pollStep s (.fail msg)).enabled = s.enabled ∧
        (pollStep s (.fail msg)).mounted = s.mounted) := by
  refine ⟨fun enabled events => (pollRun_invariant enabled events).1, ?_, ?_⟩
  · intro s hf
    simp [pollStep, pollTick, hf]
  · intro s msg
    simp only [pollStep, pollFail]
    split
    · exact ⟨rfl, rfl, rfl, rfl⟩
    · split <;> exact ⟨rfl, rfl, rfl, rfl⟩

/-- Witness instantiating the guarded part of the C9 theorem: a tick on a
session with a fetch outstanding changes nothing. -/
theorem poll_inflight_guard_witness :
    pollStep
      { fetching := true, inFlight := 1, data := none, errorMsg := none,
        intervalActive := true, mounted := true, enabled := true } .tick =
      { fetching := true, inFlight := 1, data := none, errorMsg := none,
        intervalActive := true, mounted := true, enabled := true } :=
  poll_inflight_guard.2.1
    { fetching := true, inFlight := 1, data := none, errorMsg := none,
      intervalActive := true, mounted := true, enabled := true } rfl

/-! ### C2: transport failover and mode switching -/

/-- Claim C2 (corrected), counterexample: a manual switch to polling while
the WebSocket is healthy activates the poll interval but leaves the push
socket open and connected — both transports are active at once, and the
"deactivated" push transport still owns an open socket that keeps
delivering snapshot updates to the hook. -/
theorem transport_switch_counterexample :
    pollActive (setMode .polling supHealthy) ∧
    wsActive (setMode .polling supHealthy) ∧
    (setMode .polling supHealthy).ws.liveSockets = 1 ∧
    (setMode .polling supHealthy).ws.isConnected = true := by
  decide

/-- Claim C2 (corrected), amended: the automatic fallback (after the push
machine exhausts its budget and carries the max-reconnection marker)
switches the mode to polling and does yield exactly one active transport,
because the failed push machine owns no socket and no timer; a mode switch
always leaves the polling interval active exactly when the mode is polling;
but a mode switch never touches the WebSocket hook's state, so a manual
switch away from a live push socket leaves that socket open. -/
theorem transport_failover_amended (maxAttempts : Nat) (p : PollState)
    (m : ConnectionMode) (s : SupState) (hmax : 1 ≤ maxAttempts) :
    (fallbackEffect (supAfterExhaustion maxAttempts p)).mode = .polling ∧
    pollActive (fallbackEffect (supAfterExhaustion maxAttempts p)) ∧
    ¬ wsActive (fallbackEffect (supAfterExhaustion maxAttempts p)) ∧
    (setMode m s).ws = s.ws ∧
    (pollActive (setMode m s) ↔ m = .polling) := by
  simp only [supAfterExhaustion, afterFails_exhausted maxAttempts hmax]
  refine ⟨by simp [fallbackEffect, setMode, syncPolling],
    by simp [fallbackEffect, setMode, syncPolling, pollSetEnabled,
      pollActive],
    ?_, rfl, ?_⟩
  · simp [fallbackEffect, setMode, syncPolling, wsActive]
  · cases m <;>
      simp [setMode, syncPolling, pollSetEnabled, pollActive]

/-- Witness instantiating the amended C2 theorem at the default bound on
the healthy dashboard state. -/
theorem transport_failover_amended_witness :
    (fallbackEffect (supAfterExhaustion 10 (pollInit false))).mode =
      .polling ∧
    (setMode .websocket supHealthy).ws = supHealthy.ws := by
  have h := transport_failover_amended 10 (pollInit false) .websocket
    supHealthy (by norm_num)
  exact ⟨h.1, h.2.2.2.1⟩

/-! ### Witnesses for the remaining universally quantified theorems -/

/-- Witness instantiating the C5 theorem on a one-batch run from the empty
store: the observed intermediate state is a whole-batch prefix. -/
theorem insertBatch_totalEvents_atomic_witness :
    getTotalEvents (applyBatches [] [[{ timestamp := 0, metricType := .line, category := none, value := 1 }]]) = getTotalEvents [] + ([[({ timestamp := 0, metricType := .line, category := none, value := 1 } : DashboardMetric)]].map List.length).sum ∧
    ∃ k ≤ [[({ timestamp := 0, metricType := .line, category := none, value := 1 } : DashboardMetric)]].length, getTotalEvents ([] : MetricsDB) = getTotalEvents ([] : MetricsDB) + (([[({ timestamp := 0, metricType := .line, category := none, value := 1 } : DashboardMetric)]].take k).map List.length).sum := by
  have h := insertBatch_totalEvents_atomic []
    [[{ timestamp := 0, metricType := .line, category := none, value := 1 }]]
  exact ⟨h.2.1, h.2.2 [] (by simp [batchStates])⟩

/-- Witness instantiating the C8 theorem on the spec's concrete scenario at
`now = 0`, plus a concrete membership-preservation instance. -/
theorem cleanup_removes_exactly_old_witness :
    cleanupOldData [{ timestamp := (0 : Int) - 30 * 3600000, metricType := .line, category := none, value := 5 }, { timestamp := (0 : Int) - 3600000, metricType := .line, category := none, value := 7 }] 0 24 = ([{ timestamp := (0 : Int) - 3600000, metricType := .line, category := none, value := 7 }], 1) ∧
    ({ timestamp := (0 : Int) - 3600000, metricType := .line, category := none, value := 7 } : DashboardMetric) ∈ (cleanupOldData [{ timestamp := (0 : Int) - 3600000, metricType := .line, category := none, value := 7 }] 0 24).1 := by
  refine ⟨(cleanup_removes_exactly_old [] 0 24).2.2.2.2.2.2 5 7, ?_⟩
  exact (cleanup_removes_exactly_old
      [{ timestamp := (0 : Int) - 3600000, metricType := .line,
         category := none, value := 7 }] 0 24).2.2.1 _ (by simp)
    (by norm_num)

/-- Witness instantiating the C4 theorem on a singleton set holding one OPEN
connection: the set survives the broadcast and the connection is sent the
update. -/
theorem broadcast_skips_and_keeps_witness :
    (broadcastUpdate [{ id := 1, readyState := .OPEN }]).1 = [{ id := 1, readyState := .OPEN }] ∧
    (1 : Nat) ∈ (broadcastUpdate [{ id := 1, readyState := .OPEN }]).2 := by
  have h := broadcast_skips_and_keeps [{ id := 1, readyState := .OPEN }]
  exact ⟨h.1, h.2.2.1 { id := 1, readyState := .OPEN } (by simp) rfl⟩

/-- Witness instantiating the C7 theorem with zero value oracles at
`now = 0`: the seeded snapshot's line series has exactly 10 points, and a
concrete seeded bar point satisfies the timestamp bound. -/
theorem lineSeries_sorted_and_seed_scenario_witness :
    (getDashboardData (seedMetrics 0 60000 (fun _ => 0) (fun _ => 0) (fun _ => 0)) 0).lineChartData.length = 10 ∧
    ({ timestamp := 0, metricType := .bar, category := some "Category A", value := 0 } : DashboardMetric).timestamp ≤ 0 := by
  have h := lineSeries_sorted_and_seed_scenario [] 0 0 (fun _ => 0)
    (fun _ => 0) (fun _ => 0)
  refine ⟨h.2.2.2.1, h.2.2.2.2.2.1 _ ?_⟩
  simp [seedMetrics, seedBarMetrics, seedCategories, List.mem_append]

end AgentDBViz
